import Mathlib

/-!
Verification of the arxiv-go client core: rate limiter, retry coordinator,
paginator, iteration state machine and iterator, shallowly embedded from the
Go sources (client.go, iterator.go, types.go, query_builder.go).

Conventions of the embedding:
* Go `int` is modelled as `Int`; Go `time.Duration` / `time.Time` instants as
  `Int` (a fixed unit, e.g. nanoseconds).
* Go `error` values are modelled by `GoError`; a `nil` error is `none` in an
  `Option GoError`.
* Mutation of the iterator's single state slot is modelled by explicit state
  passing; Go pointer sharing of the `Query` value is modelled by a store
  `Nat → Query` indexed by abstract addresses.
* Network effects are modelled by oracle functions supplied as parameters
  (one classified outcome per attempt); waiting is modelled by recording the
  requested wait duration.  Context cancellation never fires in this model
  (the `ctx.Done()` arm of every `select` is taken to lose the race), which
  is the case relevant to all claims below.
-/

namespace Arxiv

/-! ### Error model (types.go) -/

/-- `ErrorType` enumeration from types.go. -/
inductive ErrorType where
  | rateLimit
  | timeout
  | parsing
  | network
  | notFound
  | invalidQuery
  | noEntry
  | unknown
  deriving DecidableEq, Repr

/-- `APIError` from types.go (the wrapped `Err` and numeric `Code` carry no
information used by the client logic and are omitted). -/
structure APIError where
  etype : ErrorType
  message : String
  retry : Bool
  deriving DecidableEq, Repr

/-- `NewAPIError` from types.go: the `Retry` flag is derived from the type. -/
def NewAPIError (errorType : ErrorType) (message : String) : APIError :=
  { etype := errorType
    message := message
    retry := errorType = ErrorType.rateLimit ∨ errorType = ErrorType.timeout ∨
      errorType = ErrorType.network ∨ errorType = ErrorType.noEntry }

/-- A Go `error` value: either an `*APIError` or some other error
(for which `errors.As(err, &apiErr)` fails), e.g. a context error. -/
inductive GoError where
  | api (e : APIError)
  | plain (message : String)
  deriving DecidableEq, Repr

/-- The retry-coordinator classification from client.go line 320:
`errors.As(err, &apiErr) && apiErr.Retry`. -/
def GoError.retryable : GoError → Bool
  | .api e => e.retry
  | .plain _ => false

/-! ### Retry coordinator (`Client.retryWithBackoff`, client.go) -/

/-- Observable outcome of one run of `retryWithBackoff`:
the returned error (`none` = success), the number of invocations of `fn`,
and the sequence of waits performed between consecutive attempts. -/
structure RetryRun where
  result : Option GoError
  calls : Nat
  waits : List Int
  deriving DecidableEq, Repr

/-- The loop of `Client.retryWithBackoff` (client.go lines 309-339), entered at
iteration `attempt` with accumulated `lastErr`.  `fn i` is the outcome of the
`i`-th invocation of the wrapped operation (`none` = success).  The delay
before a re-attempt is `0` after the very first failure (`attempt == 0`) and
`retryDelay` otherwise; no delay is recorded after the last attempt. -/
def retryFrom (fn : Nat → Option GoError) (retryDelay : Int) (n : Nat)
    (attempt : Nat) (lastErr : Option GoError) : RetryRun :=
  if attempt < n then
    match fn attempt with
    | none => ⟨none, 1, []⟩
    | some e =>
      if e.retryable then
        if attempt < n - 1 then
          let rest := retryFrom fn retryDelay n (attempt + 1) (some e)
          ⟨rest.result, rest.calls + 1,
            (if attempt ≠ 0 then retryDelay else 0) :: rest.waits⟩
        else
          let rest := retryFrom fn retryDelay n (attempt + 1) (some e)
          ⟨rest.result, rest.calls + 1, rest.waits⟩
      else ⟨some e, 1, []⟩
  else ⟨lastErr, 0, []⟩
  termination_by n - attempt

/-- `Client.retryWithBackoff` with `c.options.RetryAttempts = n`. -/
def retryWithBackoff (fn : Nat → Option GoError) (retryDelay : Int) (n : Nat) :
    RetryRun :=
  retryFrom fn retryDelay n 0 none

/-! ### Rate limiter (`Client.applyRateLimit`, client.go lines 342-367) -/

/-- `Client.applyRateLimit`, running under the lock.  `lastRequest` is the
stored timestamp on entry; `now1` is the value of `time.Now()` assigned to
`c.lastRequest`; `now2` is the instant at which `time.Since(c.lastRequest)`
is evaluated two lines later (`now1 ≤ now2`, in practice the same instant).
Returns the new stored timestamp and the duration passed to the wait timer
(`0` = immediate return). -/
def applyRateLimit (lastRequest : Int) (rateLimit : Int) (now1 now2 : Int) :
    Int × Int :=
  let lastRequest := now1
  if rateLimit ≤ 0 then
    (lastRequest, 0)
  else
    let elapsed := now2 - lastRequest
    if elapsed ≥ rateLimit then
      (lastRequest, 0)
    else
      (lastRequest, rateLimit - elapsed)

/-! ### Data model (types.go) -/

/-- `Paper` from types.go.  The iterator logic never inspects a paper's
fields, so the record is represented by an abstract identifier. -/
structure Paper where
  id : Nat
  deriving DecidableEq, Repr

/-- `SearchResults` from types.go. -/
structure SearchResults where
  papers : List Paper
  totalCount : Int
  startIndex : Int
  itemsPerPage : Int
  deriving DecidableEq, Repr

/-- `Query` from types.go.  Date instants are kept in their formatted
`YYYYMMDD` form (the only use the client makes of them). -/
structure Query where
  searchQuery : String
  idList : List String
  start : Int
  maxResults : Int
  limit : Int
  sortBy : String
  sortOrder : String
  submittedDateFrom : Option String
  submittedDateTo : Option String
  deriving DecidableEq, Repr

/-- The zero value of `Query`. -/
def Query.zero : Query :=
  { searchQuery := ""
    idList := []
    start := 0
    maxResults := 0
    limit := 0
    sortBy := ""
    sortOrder := ""
    submittedDateFrom := none
    submittedDateTo := none }

/-! ### Iteration state machine (iterator.go) -/

/-- `IteratorState` from iterator.go. -/
inductive IteratorState where
  | initial
  | fetching
  | ready
  | exhausted
  | error
  deriving DecidableEq, Repr

/-- `State` from iterator.go: the immutable iterator state snapshot. -/
structure State where
  current : IteratorState
  currentPage : Int
  currentIndex : Int
  totalFetched : Int
  error : Option GoError
  results : Option SearchResults
  deriving DecidableEq, Repr

/-- The state installed by `NewStateManager` / `StateManager.Reset`. -/
def State.initial : State :=
  { current := .initial
    currentPage := 0
    currentIndex := 0
    totalFetched := 0
    error := none
    results := none }

/-- `FetchAction` from iterator.go. -/
structure FetchAction where
  results : Option SearchResults
  error : Option GoError
  deriving DecidableEq, Repr

/-- `FetchAction.Apply` from iterator.go lines 58-89. -/
def FetchAction.Apply (a : FetchAction) (state : State) : State :=
  match a.error with
  | some e =>
    { current := .error
      currentPage := state.currentPage
      currentIndex := state.currentIndex
      totalFetched := state.totalFetched
      error := some e
      results := state.results }
  | none =>
    match a.results with
    | none =>
      { current := .exhausted
        currentPage := state.currentPage
        currentIndex := state.currentIndex
        totalFetched := state.totalFetched
        error := none
        results := none }
    | some r =>
      if r.papers.length = 0 then
        { current := .exhausted
          currentPage := state.currentPage
          currentIndex := state.currentIndex
          totalFetched := state.totalFetched
          error := none
          results := some r }
      else
        { current := .ready
          currentPage := state.currentPage + 1
          currentIndex := 0
          totalFetched := state.totalFetched
          error := none
          results := some r }

/-- `ConsumeAction.Apply` from iterator.go lines 94-103. -/
def ConsumeAction.Apply (state : State) : State :=
  { current := state.current
    currentPage := state.currentPage
    currentIndex := state.currentIndex + 1
    totalFetched := state.totalFetched + 1
    error := state.error
    results := state.results }

/-! ### Paginator (iterator.go lines 133-187)

The Go `Paginator` holds a pointer to the iterator's `Query`; the embedding
passes that query explicitly as the first argument. -/

/-- `Paginator.CalculateStartIndex`. -/
def Paginator.CalculateStartIndex (q : Query) (currentPage : Int)
    (results : Option SearchResults) : Int :=
  match results with
  | some r => r.startIndex + r.papers.length
  | none => currentPage * q.maxResults

/-- `Paginator.CalculateMaxResults`. -/
def Paginator.CalculateMaxResults (q : Query) (totalFetched : Int) : Int :=
  let maxResults := q.maxResults
  if q.limit > 0 then
    let remaining := q.limit - totalFetched
    if remaining < maxResults then remaining else maxResults
  else maxResults

/-- `Paginator.HasMoreData`. -/
def Paginator.HasMoreData (q : Query) (state : State) : Bool :=
  match state.results with
  | none => true
  | some r =>
    if q.limit > 0 ∧ state.totalFetched ≥ q.limit then false
    else
      let expectedTotal := r.startIndex + r.papers.length
      if r.totalCount > 0 ∧ expectedTotal ≥ r.totalCount then false
      else if (r.papers.length : Int) < q.maxResults then false
      else true

/-! ### Iterator (iterator.go lines 213-376) -/

/-- `Iterator.needsMoreData` (iterator.go lines 232-244). -/
def Iterator.needsMoreData (q : Query) (state : State) : Bool :=
  match state.results with
  | none => true
  | some r =>
    if state.currentIndex ≥ (r.papers.length : Int) then
      Paginator.HasMoreData q state
    else false

/-- A fetch oracle standing for `Fetcher.Fetch` (which calls
`Client.Search` with the page query): returns the `(results, err)` pair. -/
def FetchFn := Query → Option SearchResults × Option GoError

/-- Observable outcome of one `Iterator.nextPaper` call: the returned
`(paper, err)` pair, the state left in the `StateManager`, and the number of
`Fetcher.Fetch` invocations performed (0 or 1). -/
structure PollResult where
  paper : Option Paper
  error : Option GoError
  state : State
  fetches : Nat
  deriving DecidableEq, Repr

/-- The tail of `Iterator.nextPaper` after the fetch block (iterator.go lines
285-300): yield the paper at the cursor, or transition via a `FetchAction`
carrying the current results and return "no more items".  In Go a negative
`CurrentIndex` would panic at the indexing; it is unreachable and modelled by
`List.getElem?` after `Int.toNat`. -/
def Iterator.consumePhase (q : Query) (state : State) (fetches : Nat) :
    PollResult :=
  match state.results with
  | some r =>
    if state.currentIndex < (r.papers.length : Int) then
      if q.limit > 0 ∧ state.totalFetched ≥ q.limit then
        ⟨none, none, FetchAction.Apply ⟨state.results, none⟩ state, fetches⟩
      else
        ⟨r.papers[state.currentIndex.toNat]?, none,
          ConsumeAction.Apply state, fetches⟩
    else
      ⟨none, none, FetchAction.Apply ⟨state.results, none⟩ state, fetches⟩
  | none =>
    ⟨none, none, FetchAction.Apply ⟨state.results, none⟩ state, fetches⟩

/-- The dispatch on the state produced by the in-poll `FetchAction`
(iterator.go lines 273-283): surface an error or exhaustion immediately,
otherwise fall through to the consume phase. -/
def Iterator.afterFetch (q : Query) (newState : State) : PollResult :=
  match newState.current with
  | .error => ⟨none, newState.error, newState, 1⟩
  | .exhausted => ⟨none, none, newState, 1⟩
  | _ => Iterator.consumePhase q newState 1

/-- The `StateInitial, StateReady` arm of `Iterator.nextPaper` (iterator.go
lines 257-300). -/
def Iterator.nextPaperActive (q : Query) (fetch : FetchFn) (state : State) :
    PollResult :=
  if Iterator.needsMoreData q state then
    if ¬ Paginator.HasMoreData q state then
      ⟨none, none, FetchAction.Apply ⟨state.results, none⟩ state, 0⟩
    else
      let nextQuery : Query :=
        { q with
          start := Paginator.CalculateStartIndex q state.currentPage state.results
          maxResults := Paginator.CalculateMaxResults q state.totalFetched }
      let fr := fetch nextQuery
      Iterator.afterFetch q (FetchAction.Apply ⟨fr.1, fr.2⟩ state)
  else
    Iterator.consumePhase q state 0

/-- `Iterator.nextPaper` (iterator.go lines 247-305). -/
def Iterator.nextPaper (q : Query) (fetch : FetchFn) (state : State) :
    PollResult :=
  match state.current with
  | .error => ⟨none, state.error, state, 0⟩
  | .exhausted => ⟨none, none, state, 0⟩
  | .initial => Iterator.nextPaperActive q fetch state
  | .ready => Iterator.nextPaperActive q fetch state
  | .fetching =>
    ⟨none, some (.api (NewAPIError .unknown "unknown iterator state")), state, 0⟩

/-- Outcome of a sequence of `nextPaper` calls: the `(paper, err)` outputs in
order, the final state, and the total number of fetches performed. -/
structure RunResult where
  outputs : List (Option Paper × Option GoError)
  state : State
  fetches : Nat
  deriving DecidableEq, Repr

/-- Run `n` consecutive `Iterator.nextPaper` calls from `state`. -/
def Iterator.runPolls (q : Query) (fetch : FetchFn) : State → Nat → RunResult
  | state, 0 => ⟨[], state, 0⟩
  | state, n + 1 =>
    let r := Iterator.nextPaper q fetch state
    let rest := Iterator.runPolls q fetch r.state n
    ⟨(r.paper, r.error) :: rest.outputs, rest.state, r.fetches + rest.fetches⟩

/-! ### Iterator value, Reset & WithContext (iterator.go lines 213-229, 370-386)

`NewIterator` stores the caller's `*Query` pointer both in the iterator and in
its `Paginator`; `WithContext` copies the same pointer.  Pointer sharing is
modelled by a store of `Query` values indexed by abstract addresses. -/

/-- The heap of `Query` values reachable by pointer. -/
def QueryStore := Nat → Query

/-- An `Iterator` as far as its own mutable data goes: the address of the
shared `Query` (`none` = nil pointer) and the `StateManager`'s state slot. -/
structure Iterator where
  queryRef : Option Nat
  state : State

/-- `NewIterator`: fresh state manager, caller's query pointer. -/
def NewIterator (queryRef : Option Nat) : Iterator :=
  { queryRef := queryRef, state := State.initial }

/-- `Iterator.Reset` (iterator.go lines 371-376): resets the state manager
and writes `0` into the `Start` field of the shared `Query` value. -/
def Iterator.Reset (it : Iterator) (σ : QueryStore) : Iterator × QueryStore :=
  let it' : Iterator := { it with state := State.initial }
  match it.queryRef with
  | none => (it', σ)
  | some r => (it', fun n => if n = r then { σ r with start := 0 } else σ n)

/-- `Iterator.WithContext` (iterator.go lines 379-386): fresh state manager,
same `Query` pointer (and same `Paginator`, which also holds that pointer). -/
def Iterator.WithContext (it : Iterator) : Iterator :=
  { queryRef := it.queryRef, state := State.initial }

/-! ### Query parameter construction (`Client.buildQueryParams`, client.go) -/

/-- `Client.buildDateRangeFilter` (client.go lines 293-306), with the dates
already in their `YYYYMMDD` formatted form. -/
def buildDateRangeFilter (dfrom dto : Option String) : String :=
  match dfrom, dto with
  | some f, some t => "submittedDate:[" ++ f ++ " TO " ++ t ++ "]"
  | some f, none => "submittedDate:[" ++ f ++ " TO *]"
  | none, some t => "submittedDate:[* TO " ++ t ++ "]"
  | none, none => ""

/-- `Client.buildQueryParams` (client.go lines 243-290).  `url.Values` keyed
by distinct keys is modelled as an association list in insertion order. -/
def buildQueryParams (query : Query) : List (String × String) :=
  let searchQuery := query.searchQuery
  let searchQuery :=
    if query.submittedDateFrom.isSome ∨ query.submittedDateTo.isSome then
      let dateFilter :=
        buildDateRangeFilter query.submittedDateFrom query.submittedDateTo
      if searchQuery ≠ "" then "(" ++ searchQuery ++ ") AND " ++ dateFilter
      else dateFilter
    else searchQuery
  let params : List (String × String) := []
  let params :=
    if query.idList.length > 0 then
      params ++ [("id_list", String.intercalate "," query.idList)]
    else if searchQuery ≠ "" then
      params ++ [("search_query", searchQuery)]
    else params
  let params :=
    if query.start > 0 then params ++ [("start", toString query.start)]
    else params
  let maxResults := if query.maxResults ≤ 0 then (500 : Int) else query.maxResults
  let params := params ++ [("max_results", toString maxResults)]
  let sortBy := if query.sortBy = "" then "relevance" else query.sortBy
  let params := params ++ [("sortBy", sortBy)]
  let sortOrder := if query.sortOrder = "" then "descending" else query.sortOrder
  params ++ [("sortOrder", sortOrder)]

/-! ### `Client.Search` (client.go lines 120-186)

The only check `Search` performs before handing the closure to
`retryWithBackoff` — and the only one inside the closure before the HTTP
request is issued — is the nil-query check.  Each invocation of the closure
issues exactly one remote request carrying `buildQueryParams query` (rate-limit
waiting completes normally in this model); `transport i` is the classified
outcome of the `i`-th issued request (`none` = parsed OK). -/

/-- `Client.Search`: returned error (`none` = success) and the number of
remote requests issued. -/
def Search (query : Option Query) (transport : Nat → Option GoError)
    (retryAttempts : Nat) (retryDelay : Int) : Option GoError × Nat :=
  match query with
  | none => (some (.api (NewAPIError .invalidQuery "query cannot be nil")), 0)
  | some _ =>
    let run := retryWithBackoff transport retryDelay retryAttempts
    (run.result, run.calls)

/-! ### Query builder (query_builder.go) -/

/-- `QueryBuilder` from query_builder.go (the `client`, sort and date fields
irrelevant to validation are kept where the built `Query` copies them). -/
structure QueryBuilder where
  searchTerms : List String
  categories : List String
  authors : List String
  titles : List String
  abstracts : List String
  dateFrom : Option String
  dateTo : Option String
  sortBy : String
  sortOrder : String
  maxResults : Int
  limit : Int
  start : Int
  idList : List String
  errors : List GoError
  deriving DecidableEq, Repr

/-- Append one filter group as `buildSearchQuery` does: nothing when the
group is empty, the single element alone, or the `sep`-joined list wrapped in
parentheses. -/
def appendGroup (parts : List String) (qs : List String) (sep : String) :
    List String :=
  match qs with
  | [] => parts
  | [single] => parts ++ [single]
  | _ => parts ++ ["(" ++ String.intercalate sep qs ++ ")"]

/-- `QueryBuilder.buildSearchQuery` (query_builder.go lines 173-238). -/
def QueryBuilder.buildSearchQuery (qb : QueryBuilder) : String :=
  let queryParts : List String := []
  let queryParts :=
    if qb.searchTerms.length > 0 then
      let searchQuery := String.intercalate " " qb.searchTerms
      if searchQuery ≠ "" then queryParts ++ ["(" ++ searchQuery ++ ")"]
      else queryParts
    else queryParts
  let queryParts :=
    appendGroup queryParts (qb.categories.map (fun cat => "cat:" ++ cat)) " OR "
  let queryParts :=
    appendGroup queryParts (qb.authors.map (fun author => "au:" ++ author)) " OR "
  let queryParts :=
    appendGroup queryParts (qb.titles.map (fun title => "ti:" ++ title)) " OR "
  let queryParts :=
    appendGroup queryParts (qb.abstracts.map (fun abs => "abs:" ++ abs)) " OR "
  String.intercalate " AND " queryParts

/-- `QueryBuilder.buildQuery` (query_builder.go lines 241-269). -/
def QueryBuilder.buildQuery (qb : QueryBuilder) : Except GoError Query :=
  match qb.errors with
  | e :: _ => .error e
  | [] =>
    let query : Query :=
      { searchQuery := ""
        idList := []
        start := qb.start
        maxResults := qb.maxResults
        limit := qb.limit
        sortBy := qb.sortBy
        sortOrder := qb.sortOrder
        submittedDateFrom := qb.dateFrom
        submittedDateTo := qb.dateTo }
    if qb.idList.length > 0 then
      .ok { query with idList := qb.idList }
    else
      let searchQuery := qb.buildSearchQuery
      if searchQuery = "" ∧ qb.idList.length = 0 then
        .error (.api (NewAPIError .invalidQuery
          "either search query or ID list must be provided"))
      else
        .ok { query with searchQuery := searchQuery }

/-- `QueryBuilder.Execute` (query_builder.go lines 272-279): build the query,
return the build error without any remote call, otherwise delegate to
`Client.Search`. -/
def QueryBuilder.Execute (qb : QueryBuilder) (transport : Nat → Option GoError)
    (retryAttempts : Nat) (retryDelay : Int) : Option GoError × Nat :=
  match qb.buildQuery with
  | .error e => (some e, 0)
  | .ok query => Search (some query) transport retryAttempts retryDelay

/-! ### Transport stub for the limit-enforcement claim -/

/-- A transport stub with unlimited items: every fetch returns exactly the
requested number of papers (identified by their absolute offsets), reports
the requested window back, and leaves `TotalCount` at `0` (= unknown). -/
def fullPageFetch : FetchFn := fun q =>
  (some
    { papers := (List.range q.maxResults.toNat).map
        (fun (i : Nat) => ⟨(q.start + (i : Int)).toNat⟩)
      totalCount := 0
      startIndex := q.start
      itemsPerPage := q.maxResults },
   none)

/-! ## Theorems -/

/-- C1: the claim requires `applyRateLimit` to return without waiting whenever
the time elapsed since the previously recorded timestamp is at least the
minimum interval.  The code records `time.Now()` into `lastRequest` *before*
computing `elapsed = time.Since(c.lastRequest)`, so `elapsed` is measured
against the instant just stored, never against the previous request: here a
full hour (3 600 000 ms) has passed since the previous request (timestamp 0)
with a 1 000 ms minimum interval, yet the call waits the full 1 000 ms instead
of returning immediately — and the wait is the same for every value of the
previously stored timestamp. -/
theorem C1_rate_limiter_ignores_previous_timestamp :
    (3600000 : Int) - 0 ≥ 1000 ∧
    applyRateLimit 0 1000 3600000 3600000 = (3600000, 1000) ∧
    ∀ lastRequest : Int,
      applyRateLimit lastRequest 1000 3600000 3600000 = (3600000, 1000) := by
  refine ⟨by norm_num, by decide, fun lastRequest => ?_⟩
  simp [applyRateLimit]

/-- Failing input for C2: a fully consumed two-paper window whose
`TotalCount` (2) shows the server is exhausted, with no user limit. -/
def c2Results : SearchResults :=
  { papers := [⟨0⟩, ⟨1⟩], totalCount := 2, startIndex := 0, itemsPerPage := 2 }

/-- The iterator state for the C2 failing input: `Ready`, window fully
consumed (`CurrentIndex = 2 = len(Papers)`), two papers already yielded. -/
def c2State : State :=
  { current := .ready
    currentPage := 1
    currentIndex := 2
    totalFetched := 2
    error := none
    results := some c2Results }

/-- The query for the C2 failing input: page size 2, no total limit. -/
def c2Query : Query := { Query.zero with maxResults := 2 }

/-- A fetch oracle that is never consulted. -/
def noFetch : FetchFn := fun _ => (none, none)

/-- C2: the claim requires the poll after full consumption with no more data
to move the machine to `Exhausted`, with all later polls returning "no more
items" and no state change.  On the code, that poll applies
`FetchAction{Results: state.Results}` with the old non-empty window, whose
`Apply` lands in the `StateReady` branch: the phase stays `Ready`, the cursor
is reset to 0 and the page counter incremented — and the *next* poll then
re-yields the first paper of the already-consumed window, pushing
`TotalFetched` to 3. -/
theorem C2_exhaustion_leaves_ready_and_re_yields :
    Paginator.HasMoreData c2Query c2State = false ∧
    c2State.currentIndex = (c2Results.papers.length : Int) ∧
    (Iterator.nextPaper c2Query noFetch c2State).paper = none ∧
    (Iterator.nextPaper c2Query noFetch c2State).error = none ∧
    (Iterator.nextPaper c2Query noFetch c2State).fetches = 0 ∧
    (Iterator.nextPaper c2Query noFetch c2State).state.current = .ready ∧
    (Iterator.nextPaper c2Query noFetch c2State).state.current ≠ .exhausted ∧
    (Iterator.nextPaper c2Query noFetch
        (Iterator.nextPaper c2Query noFetch c2State).state).paper = some ⟨0⟩ ∧
    (Iterator.nextPaper c2Query noFetch
        (Iterator.nextPaper c2Query noFetch c2State).state).state.totalFetched
      = 3 := by
  decide

/-- C6 counterexample: the claim states that with no prior outcome the next
offset is 0 "for every value of the current page index", but
`CalculateStartIndex` returns `currentPage * query.MaxResults`: at page index
1 with the default page size 500 it returns 500. -/
theorem C6_counterexample :
    Paginator.CalculateStartIndex { Query.zero with maxResults := 500 } 1 none
      = 500 ∧ (500 : Int) ≠ 0 := by
  decide

/-- C6 (amended): with a prior outcome, the next offset is the prior outcome's
start offset plus its item count; with no prior outcome it is
`currentPage * configured page size` — hence 0 exactly when the current page
index is 0 (the only case arising in `nextPaper`, where a fetch with no prior
outcome happens only from the `Initial` state). -/
theorem C6_next_offset :
    ∀ (q : Query) (currentPage : Int) (r : SearchResults),
      Paginator.CalculateStartIndex q currentPage (some r) =
        r.startIndex + (r.papers.length : Int) ∧
      Paginator.CalculateStartIndex q currentPage none =
        currentPage * q.maxResults ∧
      Paginator.CalculateStartIndex q 0 none = 0 := by
  intro q currentPage r
  refine ⟨rfl, rfl, ?_⟩
  simp [Paginator.CalculateStartIndex]

/-- C10: `Iterator.Reset` restores the state machine to `Initial` and writes 0
into the `Start` field of the shared `Query` value; the iterator keeps the
same query pointer, an iterator derived via `WithContext` holds that same
pointer (so it and the caller observe the new `Start`), every other field of
the query and every other query in the heap are untouched. -/
theorem C10_reset_writes_shared_query_start :
    ∀ (it : Iterator) (σ : QueryStore) (r : Nat), it.queryRef = some r →
      (it.Reset σ).1.state = State.initial ∧
      (it.Reset σ).1.queryRef = some r ∧
      (it.Reset σ).2 r = { σ r with start := 0 } ∧
      ((it.Reset σ).2 r).start = 0 ∧
      it.WithContext.queryRef = some r ∧
      (∀ n, n ≠ r → (it.Reset σ).2 n = σ n) := by
  intro it σ r href
  refine ⟨?_, ?_, ?_, ?_, ?_, ?_⟩ <;>
    simp [Iterator.Reset, Iterator.WithContext, href]
  exact fun n hn => by simp [hn]

/-- Witness for C10 at a concrete heap: address 5 holds a query whose `Start`
is 7; after `Reset` the shared query's `Start` reads 0 through the store and
the state machine is back at `Initial`. -/
theorem C10_witness :
    ((Iterator.Reset ⟨some 5, c2State⟩ (fun _ => { Query.zero with start := 7 })).2 5).start = 0 ∧
    (Iterator.Reset ⟨some 5, c2State⟩ (fun _ => { Query.zero with start := 7 })).1.state = State.initial :=
  ⟨(C10_reset_writes_shared_query_start ⟨some 5, c2State⟩
      (fun _ => { Query.zero with start := 7 }) 5 rfl).2.2.2.1,
   (C10_reset_writes_shared_query_start ⟨some 5, c2State⟩
      (fun _ => { Query.zero with start := 7 }) 5 rfl).1⟩

/-- C8: a fetch failure moves the machine to the `Failed` (`StateError`) phase
preserving `TotalFetched` and storing the error, and that phase is absorbing:
`nextPaper` on a `StateError` state returns the stored error, performs no
fetch, and leaves the state unchanged. -/
theorem C8_failed_phase_absorbing :
    (∀ (a : FetchAction) (s : State) (e : GoError), a.error = some e →
      (FetchAction.Apply a s).current = .error ∧
      (FetchAction.Apply a s).error = some e ∧
      (FetchAction.Apply a s).totalFetched = s.totalFetched ∧
      (FetchAction.Apply a s).results = s.results) ∧
    (∀ (q : Query) (fetch : FetchFn) (s : State), s.current = .error →
      Iterator.nextPaper q fetch s = ⟨none, s.error, s, 0⟩) := by
  constructor
  · intro a s e he
    simp [FetchAction.Apply, he]
  · intro q fetch s hs
    simp [Iterator.nextPaper, hs]

/-- Witness for C8: a failing `FetchAction` applied to the C2 state moves it
to `StateError`, and polling an errored state returns the stored error with
no fetch and no state change. -/
theorem C8_witness :
    (FetchAction.Apply ⟨none, some (.plain "boom")⟩ c2State).current = .error ∧
    Iterator.nextPaper c2Query noFetch
        (FetchAction.Apply ⟨none, some (.plain "boom")⟩ c2State) =
      ⟨none, some (.plain "boom"),
        FetchAction.Apply ⟨none, some (.plain "boom")⟩ c2State, 0⟩ :=
  ⟨(C8_failed_phase_absorbing.1 ⟨none, some (.plain "boom")⟩ c2State
      (.plain "boom") rfl).1,
   by
    have h := C8_failed_phase_absorbing.2 c2Query noFetch
      (FetchAction.Apply ⟨none, some (.plain "boom")⟩ c2State) (by decide)
    simpa using h⟩

/-- Loop exit: no iterations remain, `lastErr` is returned. -/
theorem retryFrom_stop (fn : Nat → Option GoError) (d : Int) (n a : Nat)
    (last : Option GoError) (h : ¬ a < n) :
    retryFrom fn d n a last = ⟨last, 0, []⟩ := by
  rw [retryFrom, if_neg h]

/-- Loop body, success: the operation's value is returned at once. -/
theorem retryFrom_success (fn : Nat → Option GoError) (d : Int) (n a : Nat)
    (last : Option GoError) (h : a < n) (hfn : fn a = none) :
    retryFrom fn d n a last = ⟨none, 1, []⟩ := by
  rw [retryFrom, if_pos h, hfn]

/-- Loop body, non-retryable failure: returned immediately. -/
theorem retryFrom_fatal_step (fn : Nat → Option GoError) (d : Int) (n a : Nat)
    (last : Option GoError) (e : GoError) (h : a < n) (hfn : fn a = some e)
    (hr : e.retryable = false) :
    retryFrom fn d n a last = ⟨some e, 1, []⟩ := by
  rw [retryFrom, if_pos h, hfn]
  simp [hr]

/-- Loop body, retryable failure with further attempts remaining: wait
(nothing after the very first failure, `retryDelay` otherwise), then loop. -/
theorem retryFrom_retry_mid (fn : Nat → Option GoError) (d : Int) (n a : Nat)
    (last : Option GoError) (e : GoError) (h : a < n) (hfn : fn a = some e)
    (hr : e.retryable = true) (hmid : a < n - 1) :
    retryFrom fn d n a last =
      ⟨(retryFrom fn d n (a + 1) (some e)).result,
        (retryFrom fn d n (a + 1) (some e)).calls + 1,
        (if a ≠ 0 then d else 0) :: (retryFrom fn d n (a + 1) (some e)).waits⟩ := by
  rw [retryFrom, if_pos h, hfn]
  simp [hr, hmid]

/-- Loop body, retryable failure on the final attempt: no wait, and the next
loop test fails, returning this failure as `lastErr`. -/
theorem retryFrom_retry_last (fn : Nat → Option GoError) (d : Int) (n a : Nat)
    (last : Option GoError) (e : GoError) (h : a < n) (hfn : fn a = some e)
    (hr : e.retryable = true) (hlast : ¬ a < n - 1) :
    retryFrom fn d n a last =
      ⟨(retryFrom fn d n (a + 1) (some e)).result,
        (retryFrom fn d n (a + 1) (some e)).calls + 1,
        (retryFrom fn d n (a + 1) (some e)).waits⟩ := by
  rw [retryFrom, if_pos h, hfn]
  simp [hr, hlast]

/-- Retry loop, fatal case: after `k` retryable failures starting at iteration
`a`, a non-retryable failure at iteration `a + k` is returned at once, after
exactly `k + 1` invocations. -/
theorem retryFrom_fatal (fn : Nat → Option GoError) (d : Int) (n : Nat) :
    ∀ (k a : Nat) (last : Option GoError) (e : GoError),
      (∀ i, a ≤ i → i < a + k → ∃ ei, fn i = some ei ∧ ei.retryable = true) →
      fn (a + k) = some e → e.retryable = false → a + k < n →
      (retryFrom fn d n a last).result = some e ∧
      (retryFrom fn d n a last).calls = k + 1 := by
  intro k
  induction k with
  | zero =>
    intro a last e _ he hret hlt
    rw [Nat.add_zero] at he hlt
    rw [retryFrom_fatal_step fn d n a last e hlt he hret]
    exact ⟨rfl, rfl⟩
  | succ k ih =>
    intro a last e hall he hret hlt
    obtain ⟨ea, hea, heart⟩ := hall a (le_refl a) (by omega)
    have step := ih (a + 1) (some ea) e
      (fun i h1 h2 => hall i (by omega) (by omega))
      (by rw [← he]; congr 1; omega) hret (by omega)
    by_cases hlast : a < n - 1
    · rw [retryFrom_retry_mid fn d n a last ea (by omega) hea heart hlast]
      exact ⟨step.1, by rw [step.2]⟩
    · rw [retryFrom_retry_last fn d n a last ea (by omega) hea heart hlast]
      exact ⟨step.1, by rw [step.2]⟩

/-- Retry loop, exhaustion case: from iteration `a` with `n = a + k + 1`, if
every remaining attempt fails retryably the loop makes all `k + 1` remaining
invocations and returns the outcome of the last one. -/
theorem retryFrom_exhaust (fn : Nat → Option GoError) (d : Int) (n : Nat) :
    ∀ (k a : Nat) (last : Option GoError),
      n = a + k + 1 →
      (∀ i, a ≤ i → i < n → ∃ ei, fn i = some ei ∧ ei.retryable = true) →
      (retryFrom fn d n a last).result = fn (n - 1) ∧
      (retryFrom fn d n a last).calls = k + 1 := by
  intro k
  induction k with
  | zero =>
    intro a last hn hall
    obtain ⟨ea, hea, heart⟩ := hall a (le_refl a) (by omega)
    rw [retryFrom_retry_last fn d n a last ea (by omega) hea heart (by omega)]
    rw [retryFrom_stop fn d n (a + 1) (some ea) (by omega)]
    have hn1 : n - 1 = a := by omega
    rw [hn1, hea]
    exact ⟨rfl, rfl⟩
  | succ k ih =>
    intro a last hn hall
    obtain ⟨ea, hea, heart⟩ := hall a (le_refl a) (by omega)
    rw [retryFrom_retry_mid fn d n a last ea (by omega) hea heart (by omega)]
    have step := ih (a + 1) (some ea) (by omega)
      (fun i h1 h2 => hall i (by omega) h2)
    exact ⟨step.1, by rw [step.2]⟩

/-- C4: the retry coordinator propagates a non-retryable failure immediately
(after `k` retryable failures and a fatal one at attempt `k`, exactly `k + 1`
invocations happen and the fatal failure is the result), and when all
`maxAttempts = n` attempts fail retryably exactly `n` invocations happen and
the result is the last failure, still classified retryable. -/
theorem C4_retry_fatal_and_exhaustion :
    (∀ (fn : Nat → Option GoError) (d : Int) (n k : Nat) (e : GoError),
      (∀ i, i < k → ∃ ei, fn i = some ei ∧ ei.retryable = true) →
      fn k = some e → e.retryable = false → k < n →
      (retryWithBackoff fn d n).result = some e ∧
      (retryWithBackoff fn d n).calls = k + 1) ∧
    (∀ (fn : Nat → Option GoError) (d : Int) (n : Nat),
      1 ≤ n →
      (∀ i, i < n → ∃ ei, fn i = some ei ∧ ei.retryable = true) →
      (retryWithBackoff fn d n).calls = n ∧
      (retryWithBackoff fn d n).result = fn (n - 1) ∧
      ∃ e, (retryWithBackoff fn d n).result = some e ∧ e.retryable = true) := by
  constructor
  · intro fn d n k e hall he hret hlt
    exact retryFrom_fatal fn d n k 0 none e
      (fun i _ h2 => hall i (by omega)) (by simpa using he) hret (by omega)
  · intro fn d n hn hall
    have h := retryFrom_exhaust fn d n (n - 1) 0 none (by omega)
      (fun i _ h2 => hall i h2)
    obtain ⟨elast, helast, helastr⟩ := hall (n - 1) (by omega)
    exact ⟨by rw [retryWithBackoff, h.2]; omega,
      h.1, elast, by rw [retryWithBackoff, h.1, helast], helastr⟩

/-- A transport stub that fails fatally (parse error) on its first attempt. -/
def c4FatalFn : Nat → Option GoError :=
  fun _ => some (.api (NewAPIError .parsing "failed to parse response"))

/-- A transport stub that fails retryably (rate limited) on every attempt. -/
def c4RetryFn : Nat → Option GoError :=
  fun _ => some (.api (NewAPIError .rateLimit "rate limit exceeded"))

/-- Witness for C4: the fatal stub is invoked once out of `maxAttempts = 3`;
the always-retryable stub is invoked exactly 3 times and the final result is
its last (retryable) failure. -/
theorem C4_witness :
    ((retryWithBackoff c4FatalFn 7 3).calls = 1 ∧
      (retryWithBackoff c4FatalFn 7 3).result =
        some (.api (NewAPIError .parsing "failed to parse response"))) ∧
    ((retryWithBackoff c4RetryFn 7 3).calls = 3 ∧
      (retryWithBackoff c4RetryFn 7 3).result = c4RetryFn 2) :=
  ⟨⟨(C4_retry_fatal_and_exhaustion.1 c4FatalFn 7 3 0
        (.api (NewAPIError .parsing "failed to parse response"))
        (fun i h => absurd h (by omega)) rfl (by decide) (by omega)).2,
    (C4_retry_fatal_and_exhaustion.1 c4FatalFn 7 3 0
        (.api (NewAPIError .parsing "failed to parse response"))
        (fun i h => absurd h (by omega)) rfl (by decide) (by omega)).1⟩,
   ⟨(C4_retry_fatal_and_exhaustion.2 c4RetryFn 7 3 (by omega)
        (fun i _ => ⟨.api (NewAPIError .rateLimit "rate limit exceeded"),
          rfl, by decide⟩)).1,
    (C4_retry_fatal_and_exhaustion.2 c4RetryFn 7 3 (by omega)
        (fun i _ => ⟨.api (NewAPIError .rateLimit "rate limit exceeded"),
          rfl, by decide⟩)).2.1⟩⟩

/-- Retry loop: every inter-attempt wait produced from iteration 1 onward
equals the configured delay. -/
theorem retryFrom_waits_late (fn : Nat → Option GoError) (d : Int) (n : Nat) :
    ∀ (k a : Nat) (last : Option GoError), n ≤ a + k → 1 ≤ a →
      ∀ x ∈ (retryFrom fn d n a last).waits, x = d := by
  intro k
  induction k with
  | zero =>
    intro a last hk _ x hx
    rw [retryFrom_stop fn d n a last (by omega)] at hx
    simp at hx
  | succ k ih =>
    intro a last hk ha x hx
    by_cases han : a < n
    · cases hfn : fn a with
      | none =>
        rw [retryFrom_success fn d n a last han hfn] at hx
        simp at hx
      | some e =>
        by_cases hr : e.retryable = true
        · by_cases hlast : a < n - 1
          · rw [retryFrom_retry_mid fn d n a last e han hfn hr hlast] at hx
            simp only [List.mem_cons] at hx
            rcases hx with hx | hx
            · rw [if_pos (by omega : a ≠ 0)] at hx
              exact hx
            · exact ih (a + 1) (some e) (by omega) (by omega) x hx
          · rw [retryFrom_retry_last fn d n a last e han hfn hr hlast] at hx
            exact ih (a + 1) (some e) (by omega) (by omega) x hx
        · rw [retryFrom_fatal_step fn d n a last e han hfn
            (by simpa using hr)] at hx
          simp at hx
    · rw [retryFrom_stop fn d n a last han] at hx
      simp at hx

/-- C5: when the very first attempt fails retryably (with at least one
attempt remaining), the wait sequence starts with a zero wait — the second
attempt begins with no artificial delay — and every later wait equals the
configured delay: `waits = 0 :: replicate (len - 1) delay`. -/
theorem C5_first_retry_without_delay :
    ∀ (fn : Nat → Option GoError) (d : Int) (n : Nat) (e : GoError),
      fn 0 = some e → e.retryable = true → 2 ≤ n →
      (retryWithBackoff fn d n).waits =
        0 :: List.replicate ((retryWithBackoff fn d n).waits.length - 1) d := by
  intro fn d n e hfn hret hn
  have htail : ∀ x ∈ (retryFrom fn d n 1 (some e)).waits, x = d :=
    retryFrom_waits_late fn d n n 1 (some e) (by omega) (by omega)
  rw [retryWithBackoff,
    retryFrom_retry_mid fn d n 0 none e (by omega) hfn hret (by omega)]
  have hrep : (retryFrom fn d n (0 + 1) (some e)).waits =
      List.replicate (retryFrom fn d n (0 + 1) (some e)).waits.length d :=
    List.eq_replicate_length.mpr htail
  simp only [ne_eq, not_true_eq_false, if_false, List.length_cons,
    Nat.add_sub_cancel, reduceIte]
  exact congrArg _ hrep

/-- Witness for C5: the always-retryable stub with `maxAttempts = 3` and
delay 7 waits `[0, 7]` — nothing before the second attempt, the configured
delay before the third. -/
theorem C5_witness :
    (retryWithBackoff c4RetryFn 7 3).waits =
      0 :: List.replicate ((retryWithBackoff c4RetryFn 7 3).waits.length - 1) 7 :=
  C5_first_retry_without_delay c4RetryFn 7 3
    (.api (NewAPIError .rateLimit "rate limit exceeded")) rfl (by decide)
    (by omega)

/-- `FetchAction.Apply` never changes `TotalFetched`. -/
theorem FetchAction_Apply_totalFetched (a : FetchAction) (s : State) :
    (FetchAction.Apply a s).totalFetched = s.totalFetched := by
  unfold FetchAction.Apply
  cases a.error
  case some => rfl
  case none =>
    cases a.results
    case none => rfl
    case some r =>
      by_cases h : r.papers.length = 0 <;> simp [h]

/-- `FetchAction.Apply` keeps the cursor non-negative. -/
theorem FetchAction_Apply_index_nonneg (a : FetchAction) (s : State)
    (h : 0 ≤ s.currentIndex) : 0 ≤ (FetchAction.Apply a s).currentIndex := by
  unfold FetchAction.Apply
  cases a.error
  case some => exact h
  case none =>
    cases a.results
    case none => exact h
    case some r =>
      by_cases hl : r.papers.length = 0 <;> simp [hl, h]

/-- The consume phase of `nextPaper`: it either yields (a `Consume`
transition, `TotalFetched + 1`) or returns "no more items" (a `FetchAction`
transition, `TotalFetched` unchanged); the cursor stays non-negative. -/
theorem consumePhase_step (q : Query) (st : State) (f : Nat)
    (hidx : 0 ≤ st.currentIndex) :
    0 ≤ (Iterator.consumePhase q st f).state.currentIndex ∧
    (Iterator.consumePhase q st f).state.totalFetched =
      st.totalFetched +
        (if (Iterator.consumePhase q st f).paper.isSome then 1 else 0) := by
  cases hres : st.results with
  | none =>
    simp [Iterator.consumePhase, hres, FetchAction_Apply_totalFetched,
      FetchAction_Apply_index_nonneg _ _ hidx]
  | some r =>
    by_cases hlt : st.currentIndex < (r.papers.length : Int)
    · by_cases hlim : q.limit > 0 ∧ st.totalFetched ≥ q.limit
      · simp [Iterator.consumePhase, hres, hlt, hlim,
          FetchAction_Apply_totalFetched, FetchAction_Apply_index_nonneg _ _ hidx]
      · have hn : st.currentIndex.toNat < r.papers.length := by omega
        simp only [Iterator.consumePhase, hres, hlt, if_true, hlim, if_false,
          List.getElem?_eq_getElem hn, ConsumeAction.Apply, Option.isSome_some]
        constructor
        · omega
        · simp
    · simp [Iterator.consumePhase, hres, hlt, FetchAction_Apply_totalFetched,
        FetchAction_Apply_index_nonneg _ _ hidx]

/-- The post-fetch dispatch preserves the cursor sign and changes
`TotalFetched` by exactly 1 when it yields. -/
theorem afterFetch_step (q : Query) (ns : State) (hidx : 0 ≤ ns.currentIndex) :
    0 ≤ (Iterator.afterFetch q ns).state.currentIndex ∧
    (Iterator.afterFetch q ns).state.totalFetched =
      ns.totalFetched +
        (if (Iterator.afterFetch q ns).paper.isSome then 1 else 0) := by
  cases hc : ns.current <;>
    simp [Iterator.afterFetch, hc, hidx, consumePhase_step q ns 1 hidx]

/-- One `nextPaper` call from any state with a non-negative cursor: the new
cursor is non-negative, and `TotalFetched` grows by exactly 1 when a paper is
yielded and is unchanged otherwise. -/
theorem nextPaper_step (q : Query) (fetch : FetchFn) (s : State)
    (hidx : 0 ≤ s.currentIndex) :
    0 ≤ (Iterator.nextPaper q fetch s).state.currentIndex ∧
    (Iterator.nextPaper q fetch s).state.totalFetched =
      s.totalFetched +
        (if (Iterator.nextPaper q fetch s).paper.isSome then 1 else 0) := by
  have hactive : ∀ hcur : s.current = IteratorState.initial ∨
      s.current = IteratorState.ready,
      0 ≤ (Iterator.nextPaperActive q fetch s).state.currentIndex ∧
      (Iterator.nextPaperActive q fetch s).state.totalFetched =
        s.totalFetched +
          (if (Iterator.nextPaperActive q fetch s).paper.isSome then 1
            else 0) := by
    intro _
    unfold Iterator.nextPaperActive
    by_cases hneed : Iterator.needsMoreData q s = true
    · by_cases hmore : Paginator.HasMoreData q s = true
      · simp only [hneed, if_true, hmore, not_true_eq_false, if_false,
          reduceIte]
        constructor
        · exact (afterFetch_step q _
            (FetchAction_Apply_index_nonneg _ _ hidx)).1
        · rw [(afterFetch_step q _
            (FetchAction_Apply_index_nonneg _ _ hidx)).2,
            FetchAction_Apply_totalFetched]
      · simp only [hneed, if_true, hmore, not_false_eq_true, reduceIte,
          Bool.false_eq_true, if_true]
        simp [FetchAction_Apply_totalFetched,
          FetchAction_Apply_index_nonneg _ _ hidx]
    · simp only [hneed, Bool.false_eq_true, if_false]
      exact consumePhase_step q s 0 hidx
  unfold Iterator.nextPaper
  cases hc : s.current
  case error => simpa using hidx
  case exhausted => simpa using hidx
  case fetching => simpa using hidx
  case initial => exact hactive (Or.inl hc)
  case ready => exact hactive (Or.inr hc)

/-- Over any run of `nextPaper` calls, `TotalFetched` grows by exactly the
number of yielded papers (and the cursor stays non-negative). -/
theorem runPolls_totalFetched (q : Query) (fetch : FetchFn) :
    ∀ (n : Nat) (s : State), 0 ≤ s.currentIndex →
      0 ≤ (Iterator.runPolls q fetch s n).state.currentIndex ∧
      (Iterator.runPolls q fetch s n).state.totalFetched =
        s.totalFetched +
          (((Iterator.runPolls q fetch s n).outputs.filter
            (fun o => o.1.isSome)).length : Int) := by
  intro n
  induction n with
  | zero =>
    intro s hidx
    exact ⟨by simpa [Iterator.runPolls] using hidx, by simp [Iterator.runPolls]⟩
  | succ n ih =>
    intro s hidx
    have hstep := nextPaper_step q fetch s hidx
    have hrest := ih (Iterator.nextPaper q fetch s).state hstep.1
    unfold Iterator.runPolls
    refine ⟨hrest.1, ?_⟩
    simp only [List.filter_cons]
    by_cases hp : (Iterator.nextPaper q fetch s).paper.isSome
    · rw [hrest.2, hstep.2]
      simp [hp]
      ring
    · rw [hrest.2, hstep.2]
      simp [hp]

/-- C7: each `ConsumeAction` raises `TotalFetched` by exactly 1, no
`FetchAction` ever changes it, one `nextPaper` call raises it by exactly 1
when it yields a paper and leaves it unchanged otherwise, and over any
sequence of `nextPaper` calls from a fresh iterator (no reset) it equals the
number of papers yielded so far. -/
theorem C7_totalFetched_counts_yields :
    (∀ s : State, (ConsumeAction.Apply s).totalFetched = s.totalFetched + 1) ∧
    (∀ (a : FetchAction) (s : State),
      (FetchAction.Apply a s).totalFetched = s.totalFetched) ∧
    (∀ (q : Query) (fetch : FetchFn) (s : State), 0 ≤ s.currentIndex →
      (Iterator.nextPaper q fetch s).state.totalFetched =
        s.totalFetched +
          (if (Iterator.nextPaper q fetch s).paper.isSome then 1 else 0)) ∧
    (∀ (q : Query) (fetch : FetchFn) (n : Nat),
      (Iterator.runPolls q fetch State.initial n).state.totalFetched =
        (((Iterator.runPolls q fetch State.initial n).outputs.filter
          (fun o => o.1.isSome)).length : Int)) :=
  ⟨fun _ => rfl,
   FetchAction_Apply_totalFetched,
   fun q fetch s h => (nextPaper_step q fetch s h).2,
   fun q fetch n => by
    have h := (runPolls_totalFetched q fetch n State.initial (le_refl 0)).2
    simpa [State.initial] using h⟩

/-- Witness for C7 (the per-poll clause has the cursor hypothesis): from the
concrete `Ready` state `c2State` (cursor 2 ≥ 0) a poll leaves `TotalFetched`
at `2 + 0` or bumps it to `2 + 1` exactly according to whether it yielded. -/
theorem C7_witness :
    (Iterator.nextPaper c2Query noFetch c2State).state.totalFetched =
      c2State.totalFetched +
        (if (Iterator.nextPaper c2Query noFetch c2State).paper.isSome
          then 1 else 0) :=
  C7_totalFetched_counts_yields.2.2.1 c2Query noFetch c2State (by decide)

/-- C9 counterexample: `Client.Search` does *not* fail on a query supplying
neither a search expression nor an identifier list — with such a query (the
zero `Query`) and a transport that parses successfully, `Search` succeeds
after issuing exactly one remote request, and the issued request carries
neither a `search_query` nor an `id_list` parameter. -/
theorem C9_counterexample :
    Search (some Query.zero) (fun _ => none) 3 1000 = (none, 1) ∧
    (buildQueryParams Query.zero).lookup "search_query" = none ∧
    (buildQueryParams Query.zero).lookup "id_list" = none := by
  have h1 : retryFrom (fun _ => none) 1000 3 0 none = ⟨none, 1, []⟩ :=
    retryFrom_success (fun _ => none) 1000 3 0 none (by omega) rfl
  exact ⟨by simp [Search, retryWithBackoff, h1], by decide, by decide⟩

/-- C9 (amended): the invalid-configuration rejection for "neither a search
expression nor an identifier list" is performed by `QueryBuilder.buildQuery`
(hence by `Execute` and by the builder's `Iterator`), which returns the
`ErrorTypeInvalidQuery` failure before any remote request is issued;
`Client.Search` itself only rejects a nil query. -/
theorem C9_builder_rejects_empty_query :
    ∀ (qb : QueryBuilder) (transport : Nat → Option GoError)
      (retryAttempts : Nat) (retryDelay : Int),
      qb.errors = [] → qb.idList = [] → qb.searchTerms = [] →
      qb.categories = [] → qb.authors = [] → qb.titles = [] →
      qb.abstracts = [] →
      qb.buildQuery = .error (.api (NewAPIError .invalidQuery
        "either search query or ID list must be provided")) ∧
      qb.Execute transport retryAttempts retryDelay =
        (some (.api (NewAPIError .invalidQuery
          "either search query or ID list must be provided")), 0) := by
  intro qb transport retryAttempts retryDelay herr hid hterms hcats hauth
    htitles habs
  have hsq : qb.buildSearchQuery = "" := by
    simp only [QueryBuilder.buildSearchQuery, hterms, hcats, hauth, htitles,
      habs, List.map_nil, appendGroup, List.length_nil, gt_iff_lt,
      lt_self_iff_false, if_false, reduceIte]
    rfl
  have hbq : qb.buildQuery = .error (.api (NewAPIError .invalidQuery
      "either search query or ID list must be provided")) := by
    rw [QueryBuilder.buildQuery, herr]
    simp [hid, hsq]
  exact ⟨hbq, by rw [QueryBuilder.Execute, hbq]⟩

/-- The query builder produced by `Client.NewQuery` with no search terms and
no identifier list (builder defaults from client.go lines 212-220). -/
def emptyQB : QueryBuilder :=
  { searchTerms := []
    categories := []
    authors := []
    titles := []
    abstracts := []
    dateFrom := none
    dateTo := none
    sortBy := "relevance"
    sortOrder := "descending"
    maxResults := 500
    limit := 0
    start := 0
    idList := []
    errors := [] }

/-- Witness for C9: executing the defaulted builder with no search expression
and no identifier list returns the invalid-configuration failure with zero
remote requests issued. -/
theorem C9_witness :
    emptyQB.Execute (fun _ => none) 3 1000 =
      (some (.api (NewAPIError .invalidQuery
        "either search query or ID list must be provided")), 0) :=
  (C9_builder_rejects_empty_query emptyQB (fun _ => none) 3 1000
    rfl rfl rfl rfl rfl rfl rfl).2

/-! ### Limit enforcement (C3): invariant of the poll trace under
`fullPageFetch` with page size `M` and total limit `L`. -/

/-- The query configured with page size `M` and total-item limit `L`. -/
def limitQuery (M L : Nat) : Query :=
  { Query.zero with maxResults := (M : Int), limit := (L : Int) }

/-- Size of the `k`-th fetched page (0-based): the configured page size `M`
clamped to the remaining budget under the limit `L`. -/
def pageSize (M L k : Nat) : Nat := min M (L - k * M)

/-- The papers of the `k`-th page delivered by `fullPageFetch`. -/
def pagePapers (M L k : Nat) : List Paper :=
  (List.range (pageSize M L k)).map (fun i => ⟨k * M + i⟩)

/-- The `SearchResults` value delivered by `fullPageFetch` for the `k`-th
page. -/
def pageResults (M L k : Nat) : SearchResults :=
  { papers := pagePapers M L k
    totalCount := 0
    startIndex := ((k * M : Nat) : Int)
    itemsPerPage := ((pageSize M L k : Nat) : Int) }

/-- The iterator state while consuming the `k`-th page at in-page cursor `c`
(so `k*M + c` papers yielded in total). -/
def pageState (M L k c : Nat) : State :=
  { current := .ready
    currentPage := (k : Int) + 1
    currentIndex := (c : Int)
    totalFetched := ((k * M + c : Nat) : Int)
    error := none
    results := some (pageResults M L k) }

/-- The state shape entered once the limit is reached: `Ready` with cursor 0
on a non-empty window and `TotalFetched = L`. -/
def postState (L : Nat) (p : Int) (r : SearchResults) : State :=
  { current := .ready
    currentPage := p
    currentIndex := 0
    totalFetched := (L : Int)
    error := none
    results := some r }

/-- The absorbing post-limit shape: some `postState` with a non-empty window
(the page counter keeps growing with each blocked poll). -/
def C3Post (L : Nat) (s : State) : Prop :=
  ∃ (p : Int) (r : SearchResults), 1 ≤ r.papers.length ∧ s = postState L p r

/-- Invariant after `n` polls of the `limitQuery M L` iterator against
`fullPageFetch`. -/
def C3Inv (M L n : Nat) (s : State) : Prop :=
  (n = 0 ∧ s = State.initial) ∨
  (1 ≤ n ∧ n ≤ L ∧ ∃ k c, n = k * M + c ∧ 1 ≤ c ∧ c ≤ pageSize M L k ∧
    s = pageState M L k c) ∨
  (L < n ∧ C3Post L s)

theorem pagePapers_length (M L k : Nat) :
    (pagePapers M L k).length = pageSize M L k := by
  simp [pagePapers]

theorem pagePapers_getElem (M L k c : Nat) (hc : c < pageSize M L k) :
    (pagePapers M L k)[c]? = some ⟨k * M + c⟩ := by
  simp [pagePapers, List.getElem?_map, List.getElem?_range, hc]

theorem calcMax_eq (M L tf : Nat) (h : tf < L) :
    Paginator.CalculateMaxResults (limitQuery M L) (tf : Int) =
      ((min M (L - tf) : Nat) : Int) := by
  simp only [Paginator.CalculateMaxResults, limitQuery, Query.zero]
  split_ifs <;> push_cast <;> omega

theorem calcStart_page (M L k : Nat) (p : Int) :
    Paginator.CalculateStartIndex (limitQuery M L) p
      (some (pageResults M L k)) =
      ((k * M : Nat) : Int) + ((pageSize M L k : Nat) : Int) := by
  simp [Paginator.CalculateStartIndex, pageResults, pagePapers]

/-- `fullPageFetch` on the window starting at `k*M` with size `pageSize`
delivers exactly the `k`-th page. -/
theorem fullPageFetch_page (M L k : Nat) (q : Query)
    (hs : q.start = ((k * M : Nat) : Int))
    (hr : q.maxResults = ((pageSize M L k : Nat) : Int)) :
    fullPageFetch q = (some (pageResults M L k), none) := by
  have hmap : (List.range (pageSize M L k)).map
        (fun (i : Nat) => (⟨(((k * M : Nat) : Int) + (i : Int)).toNat⟩ : Paper)) =
      (List.range (pageSize M L k)).map (fun i => (⟨k * M + i⟩ : Paper)) :=
    List.map_congr_left (fun a _ => by simp only [Paper.mk.injEq]; omega)
  simp only [fullPageFetch, hs, hr, Int.toNat_natCast]
  rw [hmap]
  rfl

/-- A successful non-empty fetch outcome: `Ready`, next page, cursor reset. -/
theorem FetchApply_nonempty (r : SearchResults) (s : State)
    (hr : ¬ r.papers.length = 0) :
    FetchAction.Apply ⟨some r, none⟩ s =
      { current := .ready, currentPage := s.currentPage + 1,
        currentIndex := 0, totalFetched := s.totalFetched, error := none,
        results := some r } := by
  simp [FetchAction.Apply, hr]

theorem needsMore_pageState_lt (M L k c : Nat) (hc : c < pageSize M L k) :
    Iterator.needsMoreData (limitQuery M L) (pageState M L k c) = false := by
  simp only [Iterator.needsMoreData, pageState, pageResults, pagePapers_length]
  rw [if_neg]
  omega

theorem needsMore_pageState_ge (M L k c : Nat) (hc : pageSize M L k ≤ c) :
    Iterator.needsMoreData (limitQuery M L) (pageState M L k c) =
      Paginator.HasMoreData (limitQuery M L) (pageState M L k c) := by
  simp only [Iterator.needsMoreData, pageState, pageResults, pagePapers_length]
  rw [if_pos]
  omega

theorem hasMore_pageState_true (M L k c : Nat) (hsz : pageSize M L k = M)
    (hn : k * M + c < L) :
    Paginator.HasMoreData (limitQuery M L) (pageState M L k c) = true := by
  simp only [Paginator.HasMoreData, pageState, pageResults, limitQuery,
    Query.zero, pagePapers_length]
  split_ifs <;> first | rfl | (exfalso; omega)

theorem hasMore_pageState_false (M L k c : Nat) (hL : 1 ≤ L)
    (hge : L ≤ k * M + c) :
    Paginator.HasMoreData (limitQuery M L) (pageState M L k c) = false := by
  simp only [Paginator.HasMoreData, pageState, pageResults, limitQuery,
    Query.zero, pagePapers_length]
  split_ifs <;> first | rfl | (exfalso; omega)

theorem consumePhase_yield (M L k c f : Nat) (hc : c < pageSize M L k)
    (hn : k * M + c < L) :
    Iterator.consumePhase (limitQuery M L) (pageState M L k c) f =
      ⟨some ⟨k * M + c⟩, none, pageState M L k (c + 1), f⟩ := by
  simp only [Iterator.consumePhase, pageState, pageResults, pagePapers_length,
    limitQuery, Query.zero]
  rw [if_pos (by omega), if_neg (by omega), Int.toNat_natCast,
    pagePapers_getElem M L k c hc]
  simp only [ConsumeAction.Apply, PollResult.mk.injEq, State.mk.injEq]
  push_cast
  simp
  ring

theorem consumePhase_blocked (M L k c f : Nat) (hsz : 1 ≤ pageSize M L k)
    (hc : c < pageSize M L k) (hL : 1 ≤ L) (hge : L ≤ k * M + c) :
    Iterator.consumePhase (limitQuery M L) (pageState M L k c) f =
      ⟨none, none,
        { current := .ready, currentPage := ((k : Int) + 1) + 1,
          currentIndex := 0, totalFetched := ((k * M + c : Nat) : Int),
          error := none, results := some (pageResults M L k) }, f⟩ := by
  simp only [Iterator.consumePhase, pageState, pageResults, pagePapers_length,
    limitQuery, Query.zero]
  rw [if_pos (by omega), if_pos (by constructor <;> omega)]
  rw [FetchApply_nonempty _ _ (by rw [pagePapers_length]; omega)]

theorem consumePhase_pageEnd (M L k c f : Nat) (hsz : 1 ≤ pageSize M L k)
    (hc : pageSize M L k ≤ c) :
    Iterator.consumePhase (limitQuery M L) (pageState M L k c) f =
      ⟨none, none,
        { current := .ready, currentPage := ((k : Int) + 1) + 1,
          currentIndex := 0, totalFetched := ((k * M + c : Nat) : Int),
          error := none, results := some (pageResults M L k) }, f⟩ := by
  simp only [Iterator.consumePhase, pageState, pageResults, pagePapers_length,
    limitQuery, Query.zero]
  rw [if_neg (by omega)]
  rw [FetchApply_nonempty _ _ (by rw [pagePapers_length]; omega)]

@[simp] theorem pageState_current (M L k c : Nat) :
    (pageState M L k c).current = .ready := rfl

@[simp] theorem pageState_currentPage (M L k c : Nat) :
    (pageState M L k c).currentPage = (k : Int) + 1 := rfl

@[simp] theorem pageState_currentIndex (M L k c : Nat) :
    (pageState M L k c).currentIndex = (c : Int) := rfl

@[simp] theorem pageState_totalFetched (M L k c : Nat) :
    (pageState M L k c).totalFetched = ((k * M + c : Nat) : Int) := rfl

@[simp] theorem pageState_error (M L k c : Nat) :
    (pageState M L k c).error = none := rfl

@[simp] theorem pageState_results (M L k c : Nat) :
    (pageState M L k c).results = some (pageResults M L k) := rfl

theorem nextPaper_of_ready (q : Query) (fetch : FetchFn) (s : State)
    (h : s.current = .ready) :
    Iterator.nextPaper q fetch s = Iterator.nextPaperActive q fetch s := by
  unfold Iterator.nextPaper
  rw [h]

theorem nextPaper_of_initial (q : Query) (fetch : FetchFn) (s : State)
    (h : s.current = .initial) :
    Iterator.nextPaper q fetch s = Iterator.nextPaperActive q fetch s := by
  unfold Iterator.nextPaper
  rw [h]

theorem afterFetch_of_ready (q : Query) (ns : State) (h : ns.current = .ready) :
    Iterator.afterFetch q ns = Iterator.consumePhase q ns 1 := by
  unfold Iterator.afterFetch
  rw [h]

/-- A non-empty fetch of the `k`-th page folded into a state that has
consumed exactly the first `k` pages lands on `pageState M L k 0`. -/
theorem FetchApply_to_pageState (M L k : Nat) (s : State)
    (hsz : 1 ≤ pageSize M L k) (hp : s.currentPage = (k : Int))
    (htf : s.totalFetched = ((k * M : Nat) : Int)) :
    FetchAction.Apply ⟨some (pageResults M L k), none⟩ s = pageState M L k 0 := by
  rw [FetchApply_nonempty _ _ (by simp [pageResults, pagePapers_length]; omega)]
  simp [pageState, State.mk.injEq, hp, htf]

/-- The very first poll: one fetch of the first page, yielding paper 0. -/
theorem nextPaper_first (M L : Nat) (hM : 1 ≤ M) (hL : 1 ≤ L) :
    Iterator.nextPaper (limitQuery M L) fullPageFetch State.initial =
      ⟨some ⟨0⟩, none, pageState M L 0 1, 1⟩ := by
  have hsz : 1 ≤ pageSize M L 0 := by simp [pageSize]; omega
  rw [nextPaper_of_initial _ _ _ rfl, Iterator.nextPaperActive]
  rw [show Iterator.needsMoreData (limitQuery M L) State.initial = true from rfl,
    show Paginator.HasMoreData (limitQuery M L) State.initial = true from rfl]
  simp only [if_true, not_true_eq_false, if_false, reduceIte,
    Bool.true_eq_false]
  rw [show Paginator.CalculateStartIndex (limitQuery M L)
      State.initial.currentPage State.initial.results = (0 : Int) * (M : Int)
      from rfl]
  rw [show State.initial.totalFetched = ((0 : Nat) : Int) from rfl,
    calcMax_eq M L 0 (by omega)]
  rw [fullPageFetch_page M L 0 _
    (by simp)
    (by simp [pageSize])]
  simp only
  rw [FetchApply_to_pageState M L 0 State.initial hsz (by simp [State.initial])
    (by simp [State.initial])]
  rw [afterFetch_of_ready _ _ (pageState_current M L 0 0),
    consumePhase_yield M L 0 0 1 (by omega) (by omega)]
  simp

/-- A mid-page poll strictly under the limit: yield, no fetch. -/
theorem nextPaper_midYield (M L k c : Nat) (hc : c < pageSize M L k)
    (hn : k * M + c < L) :
    Iterator.nextPaper (limitQuery M L) fullPageFetch (pageState M L k c) =
      ⟨some ⟨k * M + c⟩, none, pageState M L k (c + 1), 0⟩ := by
  rw [nextPaper_of_ready _ _ _ (pageState_current M L k c),
    Iterator.nextPaperActive, needsMore_pageState_lt M L k c hc]
  simp only [Bool.false_eq_true, if_false]
  exact consumePhase_yield M L k c 0 hc hn

/-- A poll at a page boundary strictly under the limit: one fetch of the next
page, yielding its first paper. -/
theorem nextPaper_cross (M L k : Nat) (hM : 1 ≤ M) (_hL : 1 ≤ L)
    (hn : (k + 1) * M < L) :
    Iterator.nextPaper (limitQuery M L) fullPageFetch (pageState M L k M) =
      ⟨some ⟨(k + 1) * M⟩, none, pageState M L (k + 1) 1, 1⟩ := by
  have hkm : (k + 1) * M = k * M + M := by ring
  have hszk : pageSize M L k = M := by simp [pageSize]; omega
  have hszk1 : 1 ≤ pageSize M L (k + 1) := by simp [pageSize]; omega
  rw [nextPaper_of_ready _ _ _ (pageState_current M L k M),
    Iterator.nextPaperActive, needsMore_pageState_ge M L k M (by omega),
    hasMore_pageState_true M L k M hszk (by omega)]
  simp only [if_true, not_true_eq_false, Bool.true_eq_false, if_false,
    reduceIte, pageState_currentPage, pageState_results,
    pageState_totalFetched]
  rw [calcStart_page M L k, calcMax_eq M L (k * M + M) (by omega)]
  rw [fullPageFetch_page M L (k + 1) _
    (by show (((k * M : Nat) : Int) + ((pageSize M L k : Nat) : Int)) =
        (((k + 1) * M : Nat) : Int)
        rw [hszk]; omega)
    (by show ((min M (L - (k * M + M)) : Nat) : Int) =
        ((pageSize M L (k + 1) : Nat) : Int)
        simp only [pageSize]; omega)]
  simp only
  rw [FetchApply_to_pageState M L (k + 1) (pageState M L k M) hszk1
    (by simp only [pageState_currentPage]; omega)
    (by simp only [pageState_totalFetched]; omega)]
  rw [afterFetch_of_ready _ _ (pageState_current M L (k + 1) 0),
    consumePhase_yield M L (k + 1) 0 1 (by omega) (by omega)]
  simp

/-- A poll from a `pageState` that has reached the limit: "no more items",
no fetch, transition to the absorbing post-limit shape. -/
theorem nextPaper_limitReached (M L k c : Nat) (hL : 1 ≤ L)
    (hsz : 1 ≤ pageSize M L k) (hc : c ≤ pageSize M L k)
    (hn : k * M + c = L) :
    Iterator.nextPaper (limitQuery M L) fullPageFetch (pageState M L k c) =
      ⟨none, none, postState L ((k : Int) + 1 + 1) (pageResults M L k), 0⟩ := by
  rw [nextPaper_of_ready _ _ _ (pageState_current M L k c),
    Iterator.nextPaperActive]
  by_cases hcc : c < pageSize M L k
  · rw [needsMore_pageState_lt M L k c hcc]
    simp only [Bool.false_eq_true, if_false]
    rw [consumePhase_blocked M L k c 0 hsz hcc hL (by omega)]
    simp [postState, State.mk.injEq, hn]
  · have hce : pageSize M L k ≤ c := by omega
    rw [needsMore_pageState_ge M L k c hce,
      hasMore_pageState_false M L k c hL (by omega)]
    simp only [Bool.false_eq_true, if_false]
    rw [consumePhase_pageEnd M L k c 0 hsz hce]
    simp [postState, State.mk.injEq, hn]

/-- A poll from the absorbing post-limit shape: "no more items", no fetch,
only the page counter moves. -/
theorem nextPaper_post (M L : Nat) (hL : 1 ≤ L) (p : Int) (r : SearchResults)
    (hr : 1 ≤ r.papers.length) :
    Iterator.nextPaper (limitQuery M L) fullPageFetch (postState L p r) =
      ⟨none, none, postState L (p + 1) r, 0⟩ := by
  rw [nextPaper_of_ready _ _ _ rfl, Iterator.nextPaperActive]
  rw [show Iterator.needsMoreData (limitQuery M L) (postState L p r) = false
    from by
      simp only [Iterator.needsMoreData, postState]
      rw [if_neg]
      omega]
  simp only [Bool.false_eq_true, if_false]
  simp only [Iterator.consumePhase, postState, limitQuery, Query.zero]
  rw [if_pos (by omega), if_pos (by constructor <;> omega)]
  rw [FetchApply_nonempty _ _ (by omega)]

/-- One poll preserves the C3 invariant; it yields a paper exactly while
fewer than `L` papers have been yielded, and never returns an error. -/
theorem C3_step (M L n : Nat) (hM : 1 ≤ M) (hL : 1 ≤ L) (s : State)
    (hinv : C3Inv M L n s) :
    C3Inv M L (n + 1)
      (Iterator.nextPaper (limitQuery M L) fullPageFetch s).state ∧
    ((Iterator.nextPaper (limitQuery M L) fullPageFetch s).paper.isSome ↔
      n < L) ∧
    (Iterator.nextPaper (limitQuery M L) fullPageFetch s).error = none := by
  rcases hinv with ⟨hn0, hs⟩ | ⟨hn1, hnL, k, c, hkc, hc1, hcsz, hs⟩ |
    ⟨hLn, p, r, hr, hs⟩
  · subst hs
    subst hn0
    rw [nextPaper_first M L hM hL]
    refine ⟨Or.inr (Or.inl ⟨by omega, by omega, 0, 1, by omega, by omega,
      by simp only [pageSize]; omega, rfl⟩), by simp; omega, rfl⟩
  · subst hs
    by_cases hnL' : n < L
    · by_cases hcc : c < pageSize M L k
      · rw [nextPaper_midYield M L k c hcc (by omega)]
        refine ⟨Or.inr (Or.inl ⟨by omega, by omega, k, c + 1, by omega,
          by omega, by omega, rfl⟩), by simp; omega, rfl⟩
      · have hszM : pageSize M L k = M := by
          simp only [pageSize] at hcsz hcc ⊢
          omega
        have hcM : c = M := by omega
        rw [hcM]
        have hkm : (k + 1) * M = k * M + M := by ring
        rw [nextPaper_cross M L k hM hL (by omega)]
        refine ⟨Or.inr (Or.inl ⟨by omega, by omega, k + 1, 1, by omega,
          by omega, by simp only [pageSize]; omega, rfl⟩),
          by simp; omega, rfl⟩
    · have hsz1 : 1 ≤ pageSize M L k := by omega
      rw [nextPaper_limitReached M L k c hL hsz1 hcsz (by omega)]
      refine ⟨Or.inr (Or.inr ⟨by omega, (k : Int) + 1 + 1, pageResults M L k,
        by simp [pageResults, pagePapers_length]; omega, rfl⟩),
        by simp; omega, rfl⟩
  · subst hs
    rw [nextPaper_post M L hL p r hr]
    exact ⟨Or.inr (Or.inr ⟨by omega, p + 1, r, hr, rfl⟩), by simp; omega, rfl⟩

/-- The C3 invariant threaded through a run of polls, with the per-poll
output characterization. -/
theorem C3_trace (M L : Nat) (hM : 1 ≤ M) (hL : 1 ≤ L) :
    ∀ (n m : Nat) (s : State), C3Inv M L m s →
      C3Inv M L (m + n)
        (Iterator.runPolls (limitQuery M L) fullPageFetch s n).state ∧
      ∀ i (h : i <
          (Iterator.runPolls (limitQuery M L) fullPageFetch s n).outputs.length),
        (((Iterator.runPolls (limitQuery M L) fullPageFetch s n).outputs.get
            ⟨i, h⟩).1.isSome ↔ m + i < L) ∧
        ((Iterator.runPolls (limitQuery M L) fullPageFetch s n).outputs.get
            ⟨i, h⟩).2 = none := by
  intro n
  induction n with
  | zero =>
    intro m s hinv
    refine ⟨by simpa using hinv, ?_⟩
    intro i h
    simp [Iterator.runPolls] at h
  | succ n ih =>
    intro m s hinv
    have hstep := C3_step M L m hM hL s hinv
    have hrest := ih (m + 1)
      (Iterator.nextPaper (limitQuery M L) fullPageFetch s).state hstep.1
    unfold Iterator.runPolls
    constructor
    · rw [show m + (n + 1) = (m + 1) + n by omega]
      exact hrest.1
    · intro i h
      cases i with
      | zero =>
        simpa using ⟨hstep.2.1, hstep.2.2⟩
      | succ j =>
        have hj : j < (Iterator.runPolls (limitQuery M L) fullPageFetch
            (Iterator.nextPaper (limitQuery M L) fullPageFetch s).state
            n).outputs.length := by
          simpa [Iterator.runPolls] using h
        have := hrest.2 j hj
        rw [show m + (j + 1) = (m + 1) + j by omega]
        simpa using this

/-- C3: with page size `M ≥ 1` and total limit `L ≥ 1` against the
unlimited-items transport stub, the `i`-th poll (0-based) yields a paper
exactly when `i < L` — so exactly `L` papers are yielded and every further
poll returns "no more items" — no poll returns an error, and after any
number `n` of polls `TotalFetched = min n L` (in particular `L` once the
limit is reached). -/
theorem C3_limit_enforcement (M L n : Nat) (hM : 1 ≤ M) (hL : 1 ≤ L) :
    (∀ i (h : i <
        (Iterator.runPolls (limitQuery M L) fullPageFetch State.initial
          n).outputs.length),
      (((Iterator.runPolls (limitQuery M L) fullPageFetch State.initial
          n).outputs.get ⟨i, h⟩).1.isSome ↔ i < L) ∧
      ((Iterator.runPolls (limitQuery M L) fullPageFetch State.initial
          n).outputs.get ⟨i, h⟩).2 = none) ∧
    (Iterator.runPolls (limitQuery M L) fullPageFetch State.initial
      n).state.totalFetched = ((min n L : Nat) : Int) := by
  have h := C3_trace M L hM hL n 0 State.initial (Or.inl ⟨rfl, rfl⟩)
  constructor
  · intro i hi
    simpa using h.2 i hi
  · rcases h.1 with ⟨hn0, hs⟩ | ⟨h1, h2, k, c, hkc, hc1, hcsz, hs⟩ |
      ⟨hl, p, r, hr, hs⟩
    · rw [hs]
      simp only [State.initial]
      omega
    · rw [hs]
      simp only [pageState_totalFetched]
      omega
    · rw [hs]
      simp only [postState]
      omega

/-- Witness for C3 at `M = 2`, `L = 3`, 5 polls: `TotalFetched` ends at
`min 5 3 = 3`. -/
theorem C3_witness :
    (Iterator.runPolls (limitQuery 2 3) fullPageFetch State.initial
      5).state.totalFetched = ((min 5 3 : Nat) : Int) :=
  (C3_limit_enforcement 2 3 5 (by omega) (by omega)).2

end Arxiv
